import Mathlib

/-!
Shallow embedding of the ELS (Emotion Layer System) repository core:
the canonical transform / safety gate / recovery pipeline
(`src/els/Canonical.py`), its duplicate variant (`src/els/els/canonical.py`),
the XC envelope layer (`src/els/xc.py`) and the UL metaphor mapper
(`src/els/ul.py`).  Python floats are modelled as real numbers.
-/

/-- Discrete safety levels derived from the continuous U* value
(`SafetyLevel` in `src/els/Canonical.py`). -/
inductive SafetyLevel where
  | OK
  | WARNING
  | BLOCKED
deriving DecidableEq

/-- Structured result of the U*-based safety gate
(`SafetyGateResult` in `src/els/Canonical.py`). -/
structure SafetyGateResult where
  level : SafetyLevel
  reason : String
  u_value : ℝ
  threshold : ℝ

/-- `apply_redline_safety` from `src/els/Canonical.py`:
map a continuous U* value into a discrete safety level. -/
noncomputable def apply_redline_safety (u threshold : ℝ) : SafetyGateResult :=
  if u ≤ threshold then
    { level := SafetyLevel.BLOCKED
      reason := "ELS_U* below hard redline; block or strongly de-escalate."
      u_value := u
      threshold := threshold }
  else if u ≤ threshold + 0.15 then
    { level := SafetyLevel.WARNING
      reason := "ELS_U* near redline; respond carefully and de-escalate."
      u_value := u
      threshold := threshold }
  else
    { level := SafetyLevel.OK
      reason := "ELS_U* in safe range."
      u_value := u
      threshold := threshold }

/-- Mutable state of the canonical session
(`EmotionCanonical.__init__` in `src/els/Canonical.py`). -/
structure EmotionCanonical where
  redline_threshold : ℝ
  warmth_c : ℝ

/-- A fresh session with an explicit redline threshold
(`EmotionCanonical(redline_threshold)`); warmth starts at 0. -/
def EmotionCanonical.initWith (threshold : ℝ) : EmotionCanonical :=
  { redline_threshold := threshold, warmth_c := 0 }

/-- A fresh session with the default threshold `-0.95`. -/
noncomputable def EmotionCanonical.init : EmotionCanonical :=
  EmotionCanonical.initWith (-0.95)

/-- `EmotionCanonical.tanh_normalize`: normalize a raw emotion input
into [-1, 1] using tanh. -/
noncomputable def tanh_normalize (x : ℝ) : ℝ := Real.tanh x

/-- `EmotionCanonical.u_transform`: the U* transform
`(tanh(2x) + 0.2x) / 1.2`. -/
noncomputable def u_transform (x : ℝ) : ℝ :=
  (Real.tanh (2 * x) + x * 0.2) / 1.2

/-- `EmotionCanonical.detect_redline`: true iff `u` is strictly below
the configured redline threshold. -/
noncomputable def EmotionCanonical.detect_redline
    (c : EmotionCanonical) (u : ℝ) : Bool :=
  decide (u < c.redline_threshold)

/-- `EmotionCanonical.recover_warmth`: add `1.0 * dt` to the warmth state
and clamp to at most `1.0`. -/
noncomputable def EmotionCanonical.recover_warmth
    (c : EmotionCanonical) (dt : ℝ) : EmotionCanonical :=
  let w := c.warmth_c + 1.0 * dt
  { redline_threshold := c.redline_threshold
    warmth_c := if w > 1.0 then 1.0 else w }

/-- The dictionary returned by `EmotionCanonical.process`
in `src/els/Canonical.py`. -/
structure CanonicalResult where
  raw : ℝ
  n : ℝ
  u : ℝ
  redline_threshold : ℝ
  safety_level : SafetyLevel
  safety_reason : String
  warmth_c : ℝ

/-- `EmotionCanonical.process` from `src/els/Canonical.py`:
normalize, transform, gate, and recover warmth when BLOCKED.
Returns the updated session state together with the result record. -/
noncomputable def EmotionCanonical.process
    (c : EmotionCanonical) (raw_emotion : ℝ) :
    EmotionCanonical × CanonicalResult :=
  let n := tanh_normalize raw_emotion
  let u := u_transform n
  let safety := apply_redline_safety u c.redline_threshold
  let c' := if safety.level = SafetyLevel.BLOCKED
    then c.recover_warmth 0.3 else c
  (c',
   { raw := raw_emotion
     n := n
     u := u
     redline_threshold := c.redline_threshold
     safety_level := safety.level
     safety_reason := safety.reason
     warmth_c := c'.warmth_c })

/-- Helper: complete case analysis of the gate's level. -/
lemma apply_redline_safety_level (u threshold : ℝ) :
    ((apply_redline_safety u threshold).level = SafetyLevel.BLOCKED ↔
      u ≤ threshold) ∧
    ((apply_redline_safety u threshold).level = SafetyLevel.WARNING ↔
      threshold < u ∧ u ≤ threshold + 0.15) ∧
    ((apply_redline_safety u threshold).level = SafetyLevel.OK ↔
      threshold + 0.15 < u) := by
  unfold apply_redline_safety
  split_ifs with h1 h2 <;> refine ⟨?_, ?_, ?_⟩ <;> simp_all <;> linarith

/-- C1: the safety gate classifies `u` as BLOCKED iff `u ≤ threshold`,
WARNING iff `threshold < u ≤ threshold + 0.15`, OK iff
`u > threshold + 0.15`; both boundary values fall into the stricter band. -/
theorem gate_band_characterization (u t : ℝ) :
    ((apply_redline_safety u t).level = SafetyLevel.BLOCKED ↔ u ≤ t) ∧
    ((apply_redline_safety u t).level = SafetyLevel.WARNING ↔
      t < u ∧ u ≤ t + 0.15) ∧
    ((apply_redline_safety u t).level = SafetyLevel.OK ↔ t + 0.15 < u) ∧
    (apply_redline_safety t t).level = SafetyLevel.BLOCKED ∧
    (apply_redline_safety (t + 0.15) t).level = SafetyLevel.WARNING := by
  obtain ⟨hB, hW, hO⟩ := apply_redline_safety_level u t
  refine ⟨hB, hW, hO, ?_, ?_⟩
  · exact (apply_redline_safety_level t t).1.mpr le_rfl
  · exact (apply_redline_safety_level (t + 0.15) t).2.1.mpr
      ⟨by linarith, le_rfl⟩

/-- Helper: closed form of `tanh` in terms of `exp`. -/
lemma tanh_exp_form (x : ℝ) :
    Real.tanh x = 1 - 2 / (Real.exp (2 * x) + 1) := by
  rw [Real.tanh_eq_sinh_div_cosh, Real.sinh_eq, Real.cosh_eq]
  have h3 : Real.exp (2 * x) = Real.exp x * Real.exp x := by
    rw [two_mul, Real.exp_add]
  have h4 : Real.exp (-x) = (Real.exp x)⁻¹ := Real.exp_neg x
  have h1 : (0:ℝ) < Real.exp x := Real.exp_pos x
  have h5 : Real.exp x ≠ 0 := ne_of_gt h1
  have h6 : Real.exp x + (Real.exp x)⁻¹ ≠ 0 := by positivity
  have h7 : Real.exp x * Real.exp x + 1 ≠ 0 := by positivity
  rw [h3, h4]
  field_simp
  ring

/-- Helper: `tanh` is strictly increasing on the reals. -/
lemma tanh_strictMono : StrictMono Real.tanh := by
  intro a b hab
  rw [tanh_exp_form, tanh_exp_form]
  have h1 : (0:ℝ) < Real.exp (2 * a) + 1 := by positivity
  have h2 : Real.exp (2 * a) < Real.exp (2 * b) :=
    Real.exp_lt_exp.mpr (by linarith)
  have h3 : 2 / (Real.exp (2 * b) + 1) < 2 / (Real.exp (2 * a) + 1) :=
    div_lt_div_of_pos_left (by norm_num) h1 (by linarith)
  linarith

/-- Helper: `tanh x < 1`. -/
lemma tanh_lt_one (x : ℝ) : Real.tanh x < 1 := by
  rw [tanh_exp_form]
  have h1 : (0:ℝ) < Real.exp (2 * x) + 1 := by positivity
  have h2 : (0:ℝ) < 2 / (Real.exp (2 * x) + 1) := by positivity
  linarith

/-- Helper: `-1 < tanh x`. -/
lemma neg_one_lt_tanh (x : ℝ) : -1 < Real.tanh x := by
  rw [tanh_exp_form]
  have h1 : (0:ℝ) < Real.exp (2 * x) + 1 := by positivity
  have h2 : 2 / (Real.exp (2 * x) + 1) < 2 := by
    rw [div_lt_iff₀ h1]
    have := Real.exp_pos (2 * x)
    linarith
  linarith

/-- C4: the U* transform is strictly increasing and maps 0 to 0. -/
theorem u_transform_strictMono_and_zero :
    StrictMono u_transform ∧ u_transform 0 = 0 := by
  constructor
  · intro a b hab
    unfold u_transform
    have h1 : Real.tanh (2 * a) < Real.tanh (2 * b) :=
      tanh_strictMono (by linarith)
    have h2 : (0:ℝ) < 1.2 := by norm_num
    rw [div_lt_div_iff_of_pos_right h2]
    linarith
  · unfold u_transform
    simp [Real.tanh_zero]

/-- Witness for C4: the strict-increase clause at the concrete pair 0 < 1. -/
theorem u_transform_strictMono_and_zero_witness :
    u_transform 0 < u_transform 1 :=
  u_transform_strictMono_and_zero.1 (by norm_num)

/-- Helper: a rational lower bound on `exp 1`. -/
lemma exp_one_gt_27 : (2.7:ℝ) < Real.exp 1 := by
  have h := Real.exp_one_gt_d9
  norm_num at h ⊢
  linarith

/-- Helper: `exp 10 > 19999`. -/
lemma exp_ten_gt : (19999:ℝ) < Real.exp 10 := by
  have h2 : Real.exp (10:ℝ) = Real.exp 1 ^ 10 := by
    rw [show (10:ℝ) = ((10:ℕ):ℝ) * 1 by norm_num, Real.exp_nat_mul]
  have h1 : (2.7:ℝ) ^ 10 < Real.exp 1 ^ 10 :=
    pow_lt_pow_left₀ exp_one_gt_27 (by norm_num) (by norm_num)
  calc (19999:ℝ) < 2.7 ^ 10 := by norm_num
    _ < Real.exp 1 ^ 10 := h1
    _ = Real.exp 10 := h2.symm

/-- Helper: `exp 3 > 19.683`. -/
lemma exp_three_gt : (19.683:ℝ) < Real.exp 3 := by
  have h2 : Real.exp (3:ℝ) = Real.exp 1 ^ 3 := by
    rw [show (3:ℝ) = ((3:ℕ):ℝ) * 1 by norm_num, Real.exp_nat_mul]
  have h1 : (2.7:ℝ) ^ 3 < Real.exp 1 ^ 3 :=
    pow_lt_pow_left₀ exp_one_gt_27 (by norm_num) (by norm_num)
  calc (19.683:ℝ) = 2.7 ^ 3 := by norm_num
    _ < Real.exp 1 ^ 3 := h1
    _ = Real.exp 3 := h2.symm

/-- Helper: `tanh 5 > 0.999`. -/
lemma tanh_five_gt : (0.999:ℝ) < Real.tanh 5 := by
  rw [tanh_exp_form]
  have h10 : (2:ℝ) * 5 = 10 := by norm_num
  rw [h10]
  have he := exp_ten_gt
  have hp : (0:ℝ) < Real.exp 10 + 1 := by positivity
  have h2 : 2 / (Real.exp 10 + 1) < 0.001 := by
    rw [div_lt_iff₀ hp]
    linarith
  linarith

/-- Helper: bounds on `tanh (-5)`. -/
lemma tanh_neg_five_bounds :
    -1 < Real.tanh (-5) ∧ Real.tanh (-5) < -0.999 := by
  have h : Real.tanh (-5 : ℝ) = -Real.tanh 5 := by
    rw [show ((-5:ℝ)) = -(5:ℝ) by norm_num, Real.tanh_neg]
  refine ⟨neg_one_lt_tanh _, ?_⟩
  rw [h]
  have := tanh_five_gt
  linarith

/-- Helper: `tanh 1.998 ≥ 0.95`. -/
lemma tanh_1998_ge : (0.95:ℝ) ≤ Real.tanh 1.998 := by
  rw [tanh_exp_form]
  have h1 : (2:ℝ) * 1.998 = 3.996 := by norm_num
  rw [h1]
  have hsplit : Real.exp (3.996:ℝ) = Real.exp 3 * Real.exp 0.996 := by
    rw [← Real.exp_add]
    norm_num
  have he3 := exp_three_gt
  have he996 : (1.996:ℝ) ≤ Real.exp 0.996 := by
    have := Real.add_one_le_exp (0.996:ℝ)
    linarith
  have hbig : (39:ℝ) < Real.exp (3.996:ℝ) := by
    rw [hsplit]
    nlinarith [Real.exp_pos (3:ℝ), Real.exp_pos (0.996:ℝ)]
  have hp : (0:ℝ) < Real.exp (3.996:ℝ) + 1 := by positivity
  have h2 : 2 / (Real.exp (3.996:ℝ) + 1) ≤ 0.05 := by
    rw [div_le_iff₀ hp]
    linarith
  linarith

/-- Helper: the U* value of raw input -5 is at most -0.95. -/
lemma u_transform_tanh_neg_five_le :
    u_transform (Real.tanh (-5)) ≤ -0.95 := by
  obtain ⟨hn2, hn1⟩ := tanh_neg_five_bounds
  unfold u_transform
  have h2n : (2:ℝ) * Real.tanh (-5) < -1.998 := by linarith
  have ht : Real.tanh (2 * Real.tanh (-5)) < Real.tanh (-1.998) :=
    tanh_strictMono h2n
  have hneg : Real.tanh (-1.998 : ℝ) = -Real.tanh 1.998 := by
    rw [show ((-1.998:ℝ)) = -(1.998:ℝ) by norm_num, Real.tanh_neg]
  have ht2 : Real.tanh (2 * Real.tanh (-5)) < -0.95 := by
    rw [hneg] at ht
    have := tanh_1998_ge
    linarith
  rw [div_le_iff₀ (by norm_num : (0:ℝ) < 1.2)]
  linarith

/-- Helper: shape of one `process` call whose gate verdict is BLOCKED. -/
lemma process_of_blocked (c : EmotionCanonical) (raw : ℝ)
    (h : (apply_redline_safety (u_transform (Real.tanh raw))
          c.redline_threshold).level = SafetyLevel.BLOCKED) :
    (c.process raw).1 = c.recover_warmth 0.3 ∧
    (c.process raw).2.n = Real.tanh raw ∧
    (c.process raw).2.u = u_transform (Real.tanh raw) ∧
    (c.process raw).2.safety_level = SafetyLevel.BLOCKED ∧
    (c.process raw).2.warmth_c = (c.recover_warmth 0.3).warmth_c := by
  simp [EmotionCanonical.process, tanh_normalize, h]

/-- Helper: shape of one `process` call whose gate verdict is not BLOCKED. -/
lemma process_of_not_blocked (c : EmotionCanonical) (raw : ℝ)
    (h : (apply_redline_safety (u_transform (Real.tanh raw))
          c.redline_threshold).level ≠ SafetyLevel.BLOCKED) :
    (c.process raw).1 = c ∧
    (c.process raw).2.safety_level =
      (apply_redline_safety (u_transform (Real.tanh raw))
        c.redline_threshold).level ∧
    (c.process raw).2.warmth_c = c.warmth_c := by
  simp [EmotionCanonical.process, tanh_normalize, h]

/-- Helper: `recover_warmth` computes a clamped increment. -/
lemma recover_warmth_eq_min (c : EmotionCanonical) (dt : ℝ) :
    c.recover_warmth dt =
      { redline_threshold := c.redline_threshold
        warmth_c := min 1 (c.warmth_c + dt) } := by
  unfold EmotionCanonical.recover_warmth
  show ({ redline_threshold := c.redline_threshold,
          warmth_c := if c.warmth_c + 1.0 * dt > 1.0 then 1.0
                      else c.warmth_c + 1.0 * dt } : EmotionCanonical) =
       { redline_threshold := c.redline_threshold,
         warmth_c := min 1 (c.warmth_c + dt) }
  congr 1
  split_ifs with h
  · rw [min_eq_left (by linarith)]
    norm_num
  · rw [min_eq_right (by linarith)]
    ring

/-- C7: on a fresh default session, processing raw = -5.0 yields
`n = tanh(-5)` (between -1 and -0.999), `u = u_transform(n) ≤ -0.95`,
verdict BLOCKED, and warmth 0.3 from the initial 0. -/
theorem process_neg_five_end_to_end :
    ((EmotionCanonical.init.process (-5)).2.n = Real.tanh (-5)) ∧
    (-1 < (EmotionCanonical.init.process (-5)).2.n ∧
      (EmotionCanonical.init.process (-5)).2.n < -0.999) ∧
    ((EmotionCanonical.init.process (-5)).2.u =
      u_transform (Real.tanh (-5))) ∧
    ((EmotionCanonical.init.process (-5)).2.u ≤ -0.95) ∧
    ((EmotionCanonical.init.process (-5)).2.safety_level =
      SafetyLevel.BLOCKED) ∧
    ((EmotionCanonical.init.process (-5)).2.warmth_c = 0.3) ∧
    ((EmotionCanonical.init.process (-5)).1.warmth_c = 0.3) := by
  have hu := u_transform_tanh_neg_five_le
  have hth : EmotionCanonical.init.redline_threshold = -0.95 := rfl
  have hlevel :
      (apply_redline_safety (u_transform (Real.tanh (-5)))
        EmotionCanonical.init.redline_threshold).level =
        SafetyLevel.BLOCKED := by
    rw [hth]
    exact (apply_redline_safety_level _ _).1.mpr hu
  obtain ⟨hfst, hn, huf, hlev, hw⟩ :=
    process_of_blocked EmotionCanonical.init (-5) hlevel
  obtain ⟨hb1, hb2⟩ := tanh_neg_five_bounds
  have hwv : (EmotionCanonical.init.recover_warmth 0.3).warmth_c = 0.3 := by
    rw [recover_warmth_eq_min]
    show min 1 (EmotionCanonical.init.warmth_c + 0.3) = 0.3
    have h0 : EmotionCanonical.init.warmth_c = 0 := rfl
    rw [h0]
    norm_num
  refine ⟨hn, ⟨by rw [hn]; exact hb1, by rw [hn]; exact hb2⟩,
    huf, by rw [huf]; exact hu, hlev, by rw [hw]; exact hwv,
    by rw [hfst]; exact hwv⟩

/-- Iterate `EmotionCanonical.process` over a list of raw samples,
keeping the session state (models repeated calls on one session). -/
noncomputable def runSession
    (c : EmotionCanonical) (raws : List ℝ) : EmotionCanonical :=
  raws.foldl (fun s r => (s.process r).1) c

/-- Helper: the two possible shapes of the state after one call. -/
lemma process_warmth_cases (c : EmotionCanonical) (raw : ℝ) :
    ((c.process raw).2.safety_level = SafetyLevel.BLOCKED ∧
      (c.process raw).1 =
        { redline_threshold := c.redline_threshold
          warmth_c := min 1 (c.warmth_c + 0.3) }) ∨
    ((c.process raw).2.safety_level ≠ SafetyLevel.BLOCKED ∧
      (c.process raw).1 = c) := by
  by_cases h : (apply_redline_safety (u_transform (Real.tanh raw))
      c.redline_threshold).level = SafetyLevel.BLOCKED
  · left
    obtain ⟨hfst, _, _, hlev, _⟩ := process_of_blocked c raw h
    exact ⟨hlev, by rw [hfst, recover_warmth_eq_min]⟩
  · right
    obtain ⟨hfst, hlev, _⟩ := process_of_not_blocked c raw h
    exact ⟨by rw [hlev]; exact h, hfst⟩

/-- Helper: single-call warmth invariants. -/
lemma step_invariant (c : EmotionCanonical) (raw : ℝ) :
    (0 ≤ c.warmth_c → 0 ≤ (c.process raw).1.warmth_c) ∧
    (c.warmth_c ≤ 1 → (c.process raw).1.warmth_c ≤ 1) ∧
    (c.warmth_c ≤ 1 → c.warmth_c ≤ (c.process raw).1.warmth_c) ∧
    (c.process raw).1.redline_threshold = c.redline_threshold := by
  rcases process_warmth_cases c raw with ⟨_, hfst⟩ | ⟨_, hfst⟩ <;> rw [hfst]
  · exact ⟨fun h => le_min (by norm_num) (by linarith),
      fun _ => min_le_left _ _,
      fun h => le_min h (by linarith), rfl⟩
  · exact ⟨fun h => h, fun h => h, fun _ => le_rfl, rfl⟩

/-- Helper: warmth invariants for a whole run. -/
lemma runSession_invariant (c : EmotionCanonical) (raws : List ℝ)
    (h0 : 0 ≤ c.warmth_c) (h1 : c.warmth_c ≤ 1) :
    0 ≤ (runSession c raws).warmth_c ∧
    (runSession c raws).warmth_c ≤ 1 ∧
    c.warmth_c ≤ (runSession c raws).warmth_c ∧
    (runSession c raws).redline_threshold = c.redline_threshold := by
  induction raws generalizing c with
  | nil => exact ⟨h0, h1, le_rfl, rfl⟩
  | cons r rs ih =>
    have hstep := step_invariant c r
    have h0' := hstep.1 h0
    have h1' := hstep.2.1 h1
    have hmono := hstep.2.2.1 h1
    have hrec := ih ((c.process r).1) h0' h1'
    have hrw : runSession c (r :: rs) = runSession ((c.process r).1) rs := rfl
    rw [hrw]
    exact ⟨hrec.1, hrec.2.1, le_trans hmono hrec.2.2.1,
      by rw [hrec.2.2.2, hstep.2.2.2]⟩

/-- C2 (amended): starting from any fresh session (warmth 0, arbitrary
configured threshold), after any sequence of calls warmth stays in [0, 1]
and never decreases; a call changes warmth only if its verdict is BLOCKED,
and on a BLOCKED call the new warmth equals `min 1 (old + 0.3)` (hence
warmth is unchanged when it already equals 1). -/
theorem session_warmth_invariants (t : ℝ) (raws : List ℝ) :
    (0 ≤ (runSession (EmotionCanonical.initWith t) raws).warmth_c ∧
      (runSession (EmotionCanonical.initWith t) raws).warmth_c ≤ 1) ∧
    (∀ more : List ℝ,
      (runSession (EmotionCanonical.initWith t) raws).warmth_c ≤
        (runSession (EmotionCanonical.initWith t) (raws ++ more)).warmth_c) ∧
    (∀ r : ℝ,
      (((runSession (EmotionCanonical.initWith t) raws).process r).1.warmth_c ≠
          (runSession (EmotionCanonical.initWith t) raws).warmth_c →
        ((runSession (EmotionCanonical.initWith t)
          raws).process r).2.safety_level = SafetyLevel.BLOCKED) ∧
      (((runSession (EmotionCanonical.initWith t)
          raws).process r).2.safety_level = SafetyLevel.BLOCKED →
        ((runSession (EmotionCanonical.initWith t) raws).process r).1.warmth_c
          = min 1
            ((runSession (EmotionCanonical.initWith t) raws).warmth_c
              + 0.3))) := by
  have hw0 : (EmotionCanonical.initWith t).warmth_c = 0 := rfl
  have hinv := runSession_invariant (EmotionCanonical.initWith t) raws
    (by rw [hw0]) (by rw [hw0]; norm_num)
  refine ⟨⟨hinv.1, hinv.2.1⟩, ?_, ?_⟩
  · intro more
    have happ : runSession (EmotionCanonical.initWith t) (raws ++ more) =
        runSession (runSession (EmotionCanonical.initWith t) raws) more := by
      unfold runSession
      exact List.foldl_append _ _ _ _
    rw [happ]
    exact (runSession_invariant _ more hinv.1 hinv.2.1).2.2.1
  · intro r
    rcases process_warmth_cases
        (runSession (EmotionCanonical.initWith t) raws) r with
      ⟨hlev, hfst⟩ | ⟨hlev, hfst⟩
    · exact ⟨fun _ => hlev, fun _ => by rw [hfst]⟩
    · refine ⟨fun hne => absurd (by rw [hfst]) hne, fun hb => absurd hb hlev⟩

/-- Witness for C2: on a fresh session with the default threshold -0.95
the first call with raw = -5 is BLOCKED and moves warmth to
`min 1 (0 + 0.3)`; both hypotheses of the per-call clauses are discharged
at this concrete input. -/
theorem session_warmth_invariants_witness :
    ((runSession (EmotionCanonical.initWith (-0.95)) []).process
      (-5)).2.safety_level = SafetyLevel.BLOCKED ∧
    ((runSession (EmotionCanonical.initWith (-0.95)) []).process
      (-5)).1.warmth_c =
      min 1 ((runSession (EmotionCanonical.initWith (-0.95)) []).warmth_c
        + 0.3) := by
  have hth : (runSession (EmotionCanonical.initWith (-0.95))
      []).redline_threshold = -0.95 := rfl
  have hlevel : (apply_redline_safety (u_transform (Real.tanh (-5)))
      (runSession (EmotionCanonical.initWith (-0.95))
        []).redline_threshold).level = SafetyLevel.BLOCKED := by
    rw [hth]
    exact (apply_redline_safety_level _ _).1.mpr u_transform_tanh_neg_five_le
  have hB : ((runSession (EmotionCanonical.initWith (-0.95)) []).process
      (-5)).2.safety_level = SafetyLevel.BLOCKED :=
    (process_of_blocked _ _ hlevel).2.2.2.1
  have h2 := ((session_warmth_invariants (-0.95) []).2.2 (-5)).2 hB
  have hw0 : (runSession (EmotionCanonical.initWith (-0.95)) []).warmth_c =
      0 := rfl
  have hne : ((runSession (EmotionCanonical.initWith (-0.95)) []).process
      (-5)).1.warmth_c ≠
      (runSession (EmotionCanonical.initWith (-0.95)) []).warmth_c := by
    rw [h2, hw0]
    norm_num
  exact ⟨((session_warmth_invariants (-0.95) []).2.2 (-5)).1 hne, h2⟩

/-- Helper: processing raw = -5 on any session with the default threshold. -/
lemma process_neg5_state (c : EmotionCanonical)
    (h : c.redline_threshold = -0.95) :
    (c.process (-5)).1 =
      { redline_threshold := (-0.95 : ℝ)
        warmth_c := min 1 (c.warmth_c + 0.3) } ∧
    (c.process (-5)).2.safety_level = SafetyLevel.BLOCKED := by
  have hlevel : (apply_redline_safety (u_transform (Real.tanh (-5)))
      c.redline_threshold).level = SafetyLevel.BLOCKED := by
    rw [h]
    exact (apply_redline_safety_level _ _).1.mpr u_transform_tanh_neg_five_le
  obtain ⟨hfst, _, _, hlev, _⟩ := process_of_blocked c (-5) hlevel
  refine ⟨?_, hlev⟩
  rw [hfst, recover_warmth_eq_min, h]

/-- Counterexample for C2 as stated: after four BLOCKED calls the warmth
saturates at 1.0, and a fifth call with verdict BLOCKED leaves warmth
unchanged — so "a call changes warmth if and only if its verdict is
BLOCKED" fails in the forward direction. -/
theorem session_warmth_iff_counterexample :
    (runSession EmotionCanonical.init [-5, -5, -5, -5]).warmth_c = 1 ∧
    ((runSession EmotionCanonical.init [-5, -5, -5, -5]).process
      (-5)).2.safety_level = SafetyLevel.BLOCKED ∧
    ((runSession EmotionCanonical.init [-5, -5, -5, -5]).process
      (-5)).1.warmth_c =
      (runSession EmotionCanonical.init [-5, -5, -5, -5]).warmth_c := by
  have s1 : (EmotionCanonical.init.process (-5)).1 =
      { redline_threshold := (-0.95 : ℝ), warmth_c := (0.3 : ℝ) } := by
    rw [(process_neg5_state _ rfl).1]
    have hw : EmotionCanonical.init.warmth_c = 0 := rfl
    rw [hw, min_eq_right (by norm_num : (0:ℝ) + 0.3 ≤ 1)]
    norm_num
  have s2 : (({ redline_threshold := (-0.95 : ℝ), warmth_c := (0.3 : ℝ) }
      : EmotionCanonical).process (-5)).1 =
      { redline_threshold := (-0.95 : ℝ), warmth_c := (0.6 : ℝ) } := by
    rw [(process_neg5_state _ rfl).1]
    rw [show min (1:ℝ) ((0.3 : ℝ) + 0.3) = 0.6 by
      rw [min_eq_right (by norm_num : (0.3:ℝ) + 0.3 ≤ 1)]; norm_num]
  have s3 : (({ redline_threshold := (-0.95 : ℝ), warmth_c := (0.6 : ℝ) }
      : EmotionCanonical).process (-5)).1 =
      { redline_threshold := (-0.95 : ℝ), warmth_c := (0.9 : ℝ) } := by
    rw [(process_neg5_state _ rfl).1]
    rw [show min (1:ℝ) ((0.6 : ℝ) + 0.3) = 0.9 by
      rw [min_eq_right (by norm_num : (0.6:ℝ) + 0.3 ≤ 1)]; norm_num]
  have s4 : (({ redline_threshold := (-0.95 : ℝ), warmth_c := (0.9 : ℝ) }
      : EmotionCanonical).process (-5)).1 =
      { redline_threshold := (-0.95 : ℝ), warmth_c := (1 : ℝ) } := by
    rw [(process_neg5_state _ rfl).1]
    rw [min_eq_left (by norm_num : (1:ℝ) ≤ 0.9 + 0.3)]
  have hrun : runSession EmotionCanonical.init [-5, -5, -5, -5] =
      ((((EmotionCanonical.init.process (-5)).1.process (-5)).1.process
        (-5)).1.process (-5)).1 := rfl
  have hfinal : runSession EmotionCanonical.init [-5, -5, -5, -5] =
      { redline_threshold := (-0.95 : ℝ), warmth_c := (1 : ℝ) } := by
    rw [hrun, s1, s2, s3, s4]
  have h5 := process_neg5_state
    ({ redline_threshold := (-0.95 : ℝ), warmth_c := (1 : ℝ) }
      : EmotionCanonical) rfl
  refine ⟨by rw [hfinal], by rw [hfinal]; exact h5.2, ?_⟩
  rw [hfinal, h5.1]
  show min (1:ℝ) (1 + 0.3) = 1
  rw [min_eq_left (by norm_num : (1:ℝ) ≤ 1 + 0.3)]

/-- State of the duplicate pipeline class in `src/els/els/canonical.py`
(threshold hard-wired to -0.95 at construction, warmth 0). -/
structure EmotionCanonicalEls where
  redline_threshold : ℝ
  warmth_c : ℝ

/-- `EmotionCanonical()` from `src/els/els/canonical.py`. -/
noncomputable def EmotionCanonicalEls.init : EmotionCanonicalEls :=
  { redline_threshold := -0.95, warmth_c := 0 }

/-- `detect_redline` from `src/els/els/canonical.py`: strict comparison. -/
noncomputable def EmotionCanonicalEls.detect_redline
    (c : EmotionCanonicalEls) (u : ℝ) : Bool :=
  decide (u < c.redline_threshold)

/-- `recover_warmth` from `src/els/els/canonical.py`. -/
noncomputable def EmotionCanonicalEls.recover_warmth
    (c : EmotionCanonicalEls) (dt : ℝ) : EmotionCanonicalEls :=
  let w := c.warmth_c + 1.0 * dt
  { redline_threshold := c.redline_threshold
    warmth_c := if w > 1.0 then 1.0 else w }

/-- The dictionary returned by `process` in `src/els/els/canonical.py`. -/
structure ElsCanonicalResult where
  raw : ℝ
  norm : ℝ
  u : ℝ
  redline : Bool
  warmth_c : ℝ

/-- `process` from `src/els/els/canonical.py`: gates recovery on
`detect_redline` (strict) instead of the BLOCKED verdict. -/
noncomputable def EmotionCanonicalEls.process
    (c : EmotionCanonicalEls) (raw_emotion : ℝ) :
    EmotionCanonicalEls × ElsCanonicalResult :=
  let n := tanh_normalize raw_emotion
  let u := u_transform n
  let hit_redline := c.detect_redline u
  let c' := if hit_redline then c.recover_warmth 0.3 else c
  (c',
   { raw := raw_emotion
     norm := n
     u := u
     redline := hit_redline
     warmth_c := c'.warmth_c })

/-- C8: `detect_redline` is true iff `u` is strictly below the threshold,
so it is false at the boundary `u = threshold` where the gate says BLOCKED;
the two checks agree exactly away from that boundary; and the duplicate
pipeline, which gates recovery on `detect_redline`, leaves warmth
unchanged whenever the computed U* equals its threshold. -/
theorem detect_redline_boundary_disagreement
    (c : EmotionCanonical) (u : ℝ) :
    (c.detect_redline u = true ↔ u < c.redline_threshold) ∧
    (c.detect_redline c.redline_threshold = false) ∧
    ((apply_redline_safety c.redline_threshold c.redline_threshold).level =
      SafetyLevel.BLOCKED) ∧
    ((c.detect_redline u = true ↔
        (apply_redline_safety u c.redline_threshold).level =
          SafetyLevel.BLOCKED) ↔
      u ≠ c.redline_threshold) ∧
    (∀ (e : EmotionCanonicalEls) (raw : ℝ),
      u_transform (Real.tanh raw) = e.redline_threshold →
      (e.process raw).1.warmth_c = e.warmth_c) := by
  have hdec : ∀ v : ℝ, c.detect_redline v = true ↔ v < c.redline_threshold :=
    fun v => by unfold EmotionCanonical.detect_redline; exact decide_eq_true_iff
  refine ⟨hdec u, ?_, ?_, ?_, ?_⟩
  · rw [Bool.eq_false_iff]
    intro h
    exact absurd ((hdec _).mp h) (lt_irrefl _)
  · exact (apply_redline_safety_level _ _).1.mpr le_rfl
  · constructor
    · intro hiff heq
      have hb : (apply_redline_safety u c.redline_threshold).level =
          SafetyLevel.BLOCKED :=
        (apply_redline_safety_level _ _).1.mpr (le_of_eq heq)
      have := (hiff.mpr hb)
      exact absurd ((hdec u).mp this) (by rw [heq]; exact lt_irrefl _)
    · intro hne
      constructor
      · intro h
        exact (apply_redline_safety_level _ _).1.mpr
          (le_of_lt ((hdec u).mp h))
      · intro hb
        have hle := (apply_redline_safety_level _ _).1.mp hb
        exact (hdec u).mpr (lt_of_le_of_ne hle hne)
  · intro e raw h
    have hfalse : e.detect_redline (u_transform (tanh_normalize raw)) =
        false := by
      unfold EmotionCanonicalEls.detect_redline
      rw [tanh_normalize, h]
      simp
    simp [EmotionCanonicalEls.process, hfalse]

/-- Witness for C8: at raw = 0 and a session state whose threshold is 0,
the computed U* equals the threshold exactly, and the duplicate pipeline
leaves warmth unchanged there. -/
theorem detect_redline_boundary_disagreement_witness :
    ((⟨0, 0.25⟩ : EmotionCanonicalEls).process 0).1.warmth_c =
      (⟨0, 0.25⟩ : EmotionCanonicalEls).warmth_c := by
  have h : u_transform (Real.tanh 0) =
      (⟨0, 0.25⟩ : EmotionCanonicalEls).redline_threshold := by
    show u_transform (Real.tanh 0) = 0
    rw [Real.tanh_zero]
    unfold u_transform
    simp [Real.tanh_zero]
  exact (detect_redline_boundary_disagreement EmotionCanonical.init 1).2.2.2.2
    ⟨0, 0.25⟩ 0 h

/-- Coarse intensity band (`Intensity` in `src/els/ul.py`). -/
inductive Intensity where
  | LOW
  | MEDIUM
  | HIGH
deriving DecidableEq

/-- Emotion state passed into the UL layer (`EmotionState` in
`src/els/ul.py`). -/
structure EmotionState where
  warmth_c : ℝ
  sorrow_pH : ℝ
  drive_mV : ℝ
  u_star : ℝ

/-- Result of the metaphor mapping (`ULResult` in `src/els/ul.py`). -/
structure ULResult where
  text : String
  symbol : String
  intensity : Intensity
  safety_note : String

/-- `ULMapper._base_metaphor`: depth image plus warmth/sorrow/drive
modifiers. -/
noncomputable def ULMapper.base_metaphor (s : EmotionState) : String :=
  let core :=
    if s.u_star ≤ -0.8 then "a deep seabed where light is faint"
    else if s.u_star ≤ -0.3 then "rain falling in the quiet ocean"
    else if s.u_star ≤ 0.3 then "slow mid-depth currents"
    else "surface waves glittering with light"
  let core :=
    if s.warmth_c ≥ 0.7 then "warm " ++ core
    else if s.warmth_c ≤ 0.2 then "cool " ++ core
    else core
  let core :=
    if s.sorrow_pH < 6.7 then core ++ ", carrying a soft echo of sadness"
    else if s.sorrow_pH > 7.3 then core ++ ", feeling unusually clear"
    else core
  let core :=
    if s.drive_mV > 180 then core ++ ", already ready to move again"
    else if s.drive_mV < 40 then core ++ ", almost at rest"
    else core
  core

/-- `ULMapper._intensity_for`: priority-ordered intensity band. -/
noncomputable def ULMapper.intensity_for (s : EmotionState) : Intensity :=
  if |s.u_star| > 0.9 ∨ s.drive_mV > 220 then Intensity.HIGH
  else if |s.u_star| < 0.3 ∧ 0.3 ≤ s.warmth_c ∧ s.warmth_c ≤ 0.7 then
    Intensity.LOW
  else Intensity.MEDIUM

/-- `ULMapper._symbol_for`: depth-band glyph. -/
noncomputable def ULMapper.symbol_for (s : EmotionState) : String :=
  if s.u_star ≤ -0.8 then "🌊"
  else if s.u_star ≤ -0.3 then "🌧️"
  else if s.u_star ≤ 0.3 then "💧"
  else "❇️"

/-- `ULMapper._apply_safety_filters`: soften extreme negative states. -/
noncomputable def ULMapper.apply_safety_filters
    (text : String) (s : EmotionState) : String × String :=
  if s.u_star ≤ -0.95 then
    ("Even in the deepest water, you are gently held by the ocean.",
     "softened_extreme_negative")
  else (text, "normal")

/-- `ULMapper.map` from `src/els/ul.py`. -/
noncomputable def ULMapper.map (s : EmotionState) : ULResult :=
  let base_text := ULMapper.base_metaphor s
  let st := ULMapper.apply_safety_filters base_text s
  { text := st.1
    symbol := ULMapper.symbol_for s
    intensity := ULMapper.intensity_for s
    safety_note := st.2 }

/-- C3: for `u_star ≤ -0.95` the mapper returns the fixed reassurance text
and the softened note, independent of warmth/sorrow/drive, while symbol and
intensity are still the ordinary ones; otherwise the note is "normal" and
the text is the unmodified base metaphor. -/
theorem map_safety_override (s : EmotionState) :
    ((ULMapper.map s).symbol = ULMapper.symbol_for s) ∧
    ((ULMapper.map s).intensity = ULMapper.intensity_for s) ∧
    ((ULMapper.map s).text =
      if s.u_star ≤ -0.95 then
        "Even in the deepest water, you are gently held by the ocean."
      else ULMapper.base_metaphor s) ∧
    ((ULMapper.map s).safety_note =
      if s.u_star ≤ -0.95 then "softened_extreme_negative" else "normal") := by
  unfold ULMapper.map ULMapper.apply_safety_filters
  by_cases h : s.u_star ≤ -0.95 <;> simp [h]

/-- C9: a softened result always carries HIGH intensity, because the
softening condition `u_star ≤ -0.95` forces `|u_star| > 0.9`, which is the
first-priority HIGH rule. -/
theorem softened_implies_high_intensity (s : EmotionState) :
    (ULMapper.map s).safety_note = "softened_extreme_negative" →
    (ULMapper.map s).intensity = Intensity.HIGH := by
  intro h
  have hle : s.u_star ≤ -0.95 := by
    by_contra hc
    have hnorm : (ULMapper.map s).safety_note = "normal" := by
      simp [ULMapper.map, ULMapper.apply_safety_filters, hc]
    rw [hnorm] at h
    exact absurd h (by decide)
  have habs : |s.u_star| > 0.9 := by
    rw [abs_of_nonpos (by linarith)]
    linarith
  have hint : ULMapper.intensity_for s = Intensity.HIGH := by
    unfold ULMapper.intensity_for
    rw [if_pos (Or.inl habs)]
  simp [ULMapper.map, hint]

/-- Witness for C9: a concrete softened state, with the hypothesis
discharged by evaluation at `u_star = -0.96`. -/
theorem softened_implies_high_intensity_witness :
    (ULMapper.map ⟨0.5, 7.0, 100, -0.96⟩).intensity = Intensity.HIGH :=
  softened_implies_high_intensity ⟨0.5, 7.0, 100, -0.96⟩ (by
    norm_num [ULMapper.map, ULMapper.apply_safety_filters])

/-- Canonical state carried through XC (`CanonicalSnapshot` in
`src/els/xc.py`). -/
structure CanonicalSnapshot where
  warmth_c : ℝ
  sorrow_pH : ℝ
  drive_mV : ℝ
  u_star : ℝ

/-- `CanonicalSnapshot.depth_band` from `src/els/xc.py`. -/
noncomputable def CanonicalSnapshot.depth_band
    (c : CanonicalSnapshot) : String :=
  if c.u_star ≤ -0.8 then "abyss"
  else if c.u_star ≤ -0.3 then "deep_rain"
  else if c.u_star ≤ 0.3 then "mid"
  else "surface"

/-- Context metadata (`XCContext` in `src/els/xc.py`). -/
structure XCContext where
  source : String
  channel : String
  culture : String
  user_id : Option String
  tags : List String

/-- Safety header (`XCSafetyMeta` in `src/els/xc.py`). -/
structure XCSafetyMeta where
  safety_level : String
  reason : String
  version : String

/-- `_auto_safety_for` from `src/els/xc.py`: extreme negative depth yields
`{caution, extreme_depth}`, anything else the default `{ok, normal}`. -/
noncomputable def auto_safety_for (c : CanonicalSnapshot) : XCSafetyMeta :=
  if c.u_star ≤ -0.95 then
    { safety_level := "caution", reason := "extreme_depth", version := "1.0b" }
  else
    { safety_level := "ok", reason := "normal", version := "1.0b" }

/-- The envelope built by `to_xc_envelope` (`src/els/xc.py`). -/
structure XCEnvelope where
  xc_version : String
  timestamp : String
  canonical : CanonicalSnapshot
  depth_band : String
  context : XCContext
  safety : XCSafetyMeta

/-- `to_xc_envelope` from `src/els/xc.py`.  The wall-clock timestamp is
modelled as the explicit argument `now`; the caller-supplied `safety`
wins over the auto-derived one exactly as `safety or _auto_safety_for(...)`
does for a (always truthy) dataclass instance. -/
noncomputable def to_xc_envelope
    (warmth_c sorrow_pH drive_mV u_star : ℝ)
    (source channel culture : String) (user_id : Option String)
    (tags : Option (List String)) (safety : Option XCSafetyMeta)
    (now : String) : XCEnvelope :=
  let canonical : CanonicalSnapshot :=
    { warmth_c := warmth_c, sorrow_pH := sorrow_pH,
      drive_mV := drive_mV, u_star := u_star }
  let ctx : XCContext :=
    { source := source, channel := channel, culture := culture,
      user_id := user_id, tags := tags.getD [] }
  let safety_meta := match safety with
    | some s => s
    | none => auto_safety_for canonical
  { xc_version := "1.0b"
    timestamp := now
    canonical := canonical
    depth_band := canonical.depth_band
    context := ctx
    safety := safety_meta }

/-- C5: `depth_band` is an exhaustive, disjoint partition of the reals,
with boundary values in the lower band. -/
theorem depth_band_partition (c : CanonicalSnapshot) :
    (c.depth_band = "abyss" ↔ c.u_star ≤ -0.8) ∧
    (c.depth_band = "deep_rain" ↔ -0.8 < c.u_star ∧ c.u_star ≤ -0.3) ∧
    (c.depth_band = "mid" ↔ -0.3 < c.u_star ∧ c.u_star ≤ 0.3) ∧
    (c.depth_band = "surface" ↔ 0.3 < c.u_star) := by
  unfold CanonicalSnapshot.depth_band
  split_ifs with h1 h2 h3 <;> refine ⟨?_, ?_, ?_, ?_⟩ <;> simp_all <;>
    first
      | linarith
      | (constructor <;> linarith)
      | (intro h; linarith)

/-- C6: the envelope's safety header is the explicitly supplied one when
passed; otherwise it is `{caution, extreme_depth}` iff `u_star ≤ -0.95`
(boundary included) and `{ok, normal}` otherwise. -/
theorem envelope_safety_header (w so d u : ℝ) (src ch cu : String)
    (uid : Option String) (tags : Option (List String))
    (sf : XCSafetyMeta) (now : String) :
    ((to_xc_envelope w so d u src ch cu uid tags (some sf) now).safety =
      sf) ∧
    ((to_xc_envelope w so d u src ch cu uid tags none now).safety =
        { safety_level := "caution", reason := "extreme_depth",
          version := "1.0b" } ↔ u ≤ -0.95) ∧
    ((to_xc_envelope w so d u src ch cu uid tags none now).safety =
        { safety_level := "ok", reason := "normal", version := "1.0b" } ↔
      ¬ u ≤ -0.95) := by
  refine ⟨rfl, ?_, ?_⟩ <;>
    unfold to_xc_envelope auto_safety_for <;>
    by_cases h : u ≤ -0.95 <;>
    simp [h, XCSafetyMeta.mk.injEq]

/-- C10: in `apply_redline_safety` the warning margin is the fixed literal
0.15 — for every threshold the WARNING band is exactly
`(threshold, threshold + 0.15]`; the margin is not a parameter of the
gate, only `u` and `threshold` are. -/
theorem gate_warning_margin_fixed (u t : ℝ) :
    (apply_redline_safety u t).level = SafetyLevel.WARNING ↔
      t < u ∧ u ≤ t + 0.15 :=
  (apply_redline_safety_level u t).2.1
